import Mathlib

/-! Shallow embedding of the render-and-cache pipeline of react-native-pdf-light.
The definitions are translated from the Android implementation files
`Common.kt`, `PagingPdfView.kt` and `DrawablePdfView.kt` (the iOS counterparts
`Common.swift`, `ZoomablePdfScrollView.swift` are noted in comments where they
differ).  Kotlin `Int` is modelled by `Int`, Kotlin `Float` by `ℚ`, and the
asynchronous coroutine completions by explicit completion steps that carry the
values captured at schedule time.  `android.util.LruCache` (an external
collaborator configured by `PagingPdfView`) is modelled by its documented
semantics: an access-ordered map trimmed from the eldest entry until the
tracked size is within `maxSize`. -/

namespace PdfLight

/-- A rasterized `ARGB_8888` bitmap, abstracted to its pixel dimensions. -/
structure Bitmap where
  width : Int
  height : Int
deriving DecidableEq

/-- `Bitmap.getByteCount`: Android allocates 4 bytes per pixel for
`ARGB_8888`, so the exact byte count of the pixel buffer is `w * h * 4`. -/
def Bitmap.byteCount (b : Bitmap) : Nat :=
  b.width.toNat * b.height.toNat * 4

/-- The `sizeOf` override of `PagingPdfView.mImageCache`
(`PagingPdfView.kt` line 83): `bitmap.byteCount / 1024`, i.e. the size is
tracked in whole kilobytes, truncating the sub-kilobyte remainder. -/
def cacheSizeOf (b : Bitmap) : Nat :=
  b.byteCount / 1024

/-- The default cache capacity computed in `PagingPdfView.kt` lines 79-80:
`maxMemory = (Runtime.getRuntime().maxMemory() / 1024)` and
`cacheSize = maxMemory / 8`, i.e. one eighth of the memory budget, in
kilobytes.  (The iOS views instead set `imageCache.countLimit` to 5 in
`PagingPdfView.setupViews` and 10 in `ZoomablePdfScrollView.setupViews`,
an entry-count limit with no byte accounting at all.) -/
def defaultCacheSize (maxMemory : Nat) : Nat :=
  maxMemory / 1024 / 8

/-- State of an `android.util.LruCache<Int, Bitmap>`: entries listed
eldest-first, plus the configured `maxSize` (in the units of `cacheSizeOf`,
here kilobytes). -/
structure LruCache where
  entries : List (Int × Bitmap)
  maxSize : Nat
deriving DecidableEq

/-- Sum of the tracked (kilobyte) sizes of the entries. -/
def lruTotalSize (l : List (Int × Bitmap)) : Nat :=
  (l.map (fun e => cacheSizeOf e.2)).sum

/-- Sum of the exact pixel byte counts of the entries (the accounting the
spec asks for; the code does not use this). -/
def exactByteTotal (l : List (Int × Bitmap)) : Nat :=
  (l.map (fun e => e.2.byteCount)).sum

/-- `LruCache.trimToSize`: evict eldest entries while the tracked size
exceeds `maxSize` (stops when the map is empty). -/
def trimToSize (maxSize : Nat) : List (Int × Bitmap) → List (Int × Bitmap)
  | [] => []
  | e :: rest =>
    if lruTotalSize (e :: rest) ≤ maxSize then e :: rest
    else trimToSize maxSize rest

/-- `LruCache.put`: replace any entry with the same key, append the new entry
as the youngest, then trim to capacity. -/
def LruCache.put (c : LruCache) (key : Int) (b : Bitmap) : LruCache :=
  { c with
    entries := trimToSize c.maxSize
      ((c.entries.filter (fun e => e.1 ≠ key)) ++ [(key, b)]) }

/-- `LruCache.get`: return the cached bitmap if present and move it to the
most-recently-used position (access order). -/
def LruCache.get (c : LruCache) (key : Int) : LruCache × Option Bitmap :=
  match c.entries.find? (fun e => e.1 = key) with
  | none => (c, none)
  | some e =>
    ({ c with entries := c.entries.filter (fun x => x.1 ≠ key) ++ [e] },
     some e.2)

/-- `LruCache.evictAll`: remove every entry. -/
def LruCache.evictAll (c : LruCache) : LruCache :=
  { c with entries := [] }

/-- After trimming, the tracked size is within capacity. -/
theorem lruTotalSize_trimToSize_le (maxSize : Nat) :
    ∀ l : List (Int × Bitmap), lruTotalSize (trimToSize maxSize l) ≤ maxSize := by
  intro l
  induction l with
  | nil => simp [trimToSize, lruTotalSize]
  | cons e rest ih =>
    unfold trimToSize
    by_cases h : lruTotalSize (e :: rest) ≤ maxSize
    · simp [h]
    · simpa [h] using ih

/-- Any `put` leaves the tracked size within capacity. -/
theorem lruTotalSize_put_le (c : LruCache) (key : Int) (b : Bitmap) :
    lruTotalSize (c.put key b).entries ≤ c.maxSize := by
  unfold LruCache.put
  exact lruTotalSize_trimToSize_le c.maxSize _

/-- Folding a sequence of puts over a cache. -/
def runPuts (c : LruCache) (ops : List (Int × Bitmap)) : LruCache :=
  ops.foldl (fun acc op => acc.put op.1 op.2) c

theorem runPuts_maxSize (c : LruCache) (ops : List (Int × Bitmap)) :
    (runPuts c ops).maxSize = c.maxSize := by
  induction ops generalizing c with
  | nil => rfl
  | cons op rest ih => simpa [runPuts, LruCache.put] using ih _

/-- C4 (amended): for every sequence of `put` calls on the Android paging
cache, the sum of the tracked kilobyte sizes (`bitmap.byteCount / 1024`,
truncated) of the entries present never exceeds the configured capacity of
`maxMemory / 1024 / 8` kilobytes; LRU eviction in `trimToSize` maintains
this. -/
theorem cache_tracked_kb_capacity_invariant (maxMemory : Nat)
    (ops : List (Int × Bitmap)) :
    lruTotalSize (runPuts { entries := [], maxSize := defaultCacheSize maxMemory } ops).entries
      ≤ defaultCacheSize maxMemory := by
  induction ops using List.reverseRecOn with
  | nil => simp [runPuts, lruTotalSize]
  | append_singleton rest op _ =>
    have hmax := runPuts_maxSize
      { entries := [], maxSize := defaultCacheSize maxMemory } rest
    have := lruTotalSize_put_le
      (runPuts { entries := [], maxSize := defaultCacheSize maxMemory } rest)
      op.1 op.2
    rw [hmax] at this
    simpa [runPuts, List.foldl_append] using this

/-- C4 counterexample: the claim accounts each entry at its exact pixel byte
count against a capacity of one eighth of the memory budget.  The code
instead tracks truncated kilobytes: a 255×1 bitmap occupies 1020 bytes but
is tracked as 0 KB, so with an 8192-byte memory budget (capacity 1 KB =
1024 bytes) two such puts are both retained, and the exact byte total 2040
exceeds the 1024-byte capacity; the tracked size is also 0, not the byte
count. -/
theorem cache_exact_byte_accounting_fails :
    cacheSizeOf { width := 255, height := 1 } ≠ Bitmap.byteCount { width := 255, height := 1 } ∧
    exactByteTotal (runPuts { entries := [], maxSize := defaultCacheSize 8192 }
      [(0, { width := 255, height := 1 }), (1, { width := 255, height := 1 })]).entries
      > 8192 / 8 := by
  constructor
  · decide
  · decide

/-- Events emitted by `PagingPdfView` through the React Native bridge
(`onLoadComplete` carries `width`, `height`, `pageCount`; `onError` a
message). -/
inductive PagingEvent where
  | loadComplete (width height pageCount : Int)
  | pdfError (msg : String)
deriving DecidableEq

/-- Outcome of the external PDF primitive when opening `mSource`
(`ParcelFileDescriptor.open` + the `PdfRenderer` constructor in
`PagingPdfView.reloadPdf`): the file may be missing
(`FileNotFoundException`), invalid (`PdfRenderer` throws after the file
descriptor was opened), or a document with a page count and the page-0 box
dimensions read via `openPage(0)`. -/
inductive OpenOutcome where
  | notFound
  | invalid
  | doc (pageCount width0 height0 : Int)
deriving DecidableEq

/-- State of a `PagingPdfView` instance (`PagingPdfView.kt`), restricted to
the render-and-cache pipeline.  Handles are abstracted to `Option Unit`; the
ledger fields (`rendererCloses`, `fdCloses`, `page0Opens`, `page0Closes`,
`renderCount`, `setImageLog`) record the externally visible operations the
view performs on the PDF primitive and on its page views. -/
structure PagingViewState where
  mSource : String
  mPdfRenderer : Option Unit
  mFileDescriptor : Option Unit
  mPdfPageWidth : Int
  mPdfPageHeight : Int
  mActualPageCount : Int
  mImageCache : LruCache
  rendererCloses : Nat
  fdCloses : Nat
  page0Opens : Nat
  page0Closes : Nat
  inflight : List (Int × Int × Int)
  renderCount : Nat
  setImageLog : List (Int × Option Bitmap)
  events : List PagingEvent
deriving DecidableEq

/-- `PagingPdfView.closePdf` (lines 218-233): under `pdfMutex`, close the
renderer if present (exceptions ignored), null it, then close the file
descriptor if present (exceptions ignored) and null it.  The close ledgers
count how many times `close()` ran on a live handle. -/
def closePdf (s : PagingViewState) : PagingViewState :=
  { s with
    mPdfRenderer := none
    mFileDescriptor := none
    rendererCloses := s.rendererCloses + (if s.mPdfRenderer.isSome then 1 else 0)
    fdCloses := s.fdCloses + (if s.mFileDescriptor.isSome then 1 else 0) }

/-- `PagingPdfView.reloadPdf` (lines 174-216): close the previous renderer,
evict the cache, open the file, read the page-0 box once (opening and
closing that page handle), record the page count, and emit
`onLoadComplete`; on failure emit `onPdfError` instead.  When the
`PdfRenderer` constructor throws, the already-opened file descriptor is
kept (as in the source, which only closes it in `closePdf`). -/
def reloadPdf (fs : String → OpenOutcome) (s : PagingViewState) : PagingViewState :=
  if s.mSource = "" then s
  else
    let s1 := closePdf s
    let s2 := { s1 with mImageCache := s1.mImageCache.evictAll }
    match fs s2.mSource with
    | OpenOutcome.notFound =>
      { s2 with events := s2.events ++
          [PagingEvent.pdfError ("File '" ++ s2.mSource ++ "' not found.")] }
    | OpenOutcome.invalid =>
      { s2 with
        mFileDescriptor := some ()
        events := s2.events ++ [PagingEvent.pdfError "Failed to open PDF" ] }
    | OpenOutcome.doc pageCount width0 height0 =>
      let s3 := { s2 with mFileDescriptor := some (), mPdfRenderer := some () }
      let s4 :=
        if 0 < pageCount then
          { s3 with
            page0Opens := s3.page0Opens + 1
            mPdfPageWidth := width0
            mPdfPageHeight := height0
            page0Closes := s3.page0Closes + 1 }
        else s3
      let s5 := { s4 with mActualPageCount := pageCount }
      { s5 with events := s5.events ++
          [PagingEvent.loadComplete s5.mPdfPageWidth s5.mPdfPageHeight s5.mActualPageCount] }

/-- The page height computed in `PdfPageAdapter.renderPage` (line 445):
`(viewWidth.toFloat() * mPdfPageHeight / mPdfPageWidth).toInt()`.  For the
positive operands that reach this line, Kotlin's float multiply/divide
followed by truncation is floor division, modelled on `Nat`. -/
def adapterPageHeight (viewWidth pdfPageHeight pdfPageWidth : Int) : Int :=
  Int.ofNat (viewWidth.toNat * pdfPageHeight.toNat / pdfPageWidth.toNat)

/-- The dimension checks and output size of `PdfPageAdapter.renderPage`
(lines 440-447): bail out on non-positive `viewWidth`, page dimensions, or
computed height, otherwise render a bitmap of exactly
`viewWidth × adapterPageHeight`. -/
def adapterRenderPageDims (viewWidth pdfPageWidth pdfPageHeight : Int) :
    Option (Int × Int) :=
  if viewWidth ≤ 0 ∨ pdfPageWidth ≤ 0 ∨ pdfPageHeight ≤ 0 then none
  else
    let pageHeight := adapterPageHeight viewWidth pdfPageHeight pdfPageWidth
    if pageHeight ≤ 0 then none else some (viewWidth, pageHeight)

/-- `PdfPageAdapter.renderPage` (lines 440-468) as seen by the request
ledger: on a live renderer and valid dimensions it unconditionally launches
a coroutine that invokes `PdfPageRenderer.renderPage` — there is no check
of `inflight` before scheduling. -/
def adapterRenderPage (s : PagingViewState) (position viewWidth : Int) :
    PagingViewState :=
  match s.mPdfRenderer with
  | none => s
  | some _ =>
    match adapterRenderPageDims viewWidth s.mPdfPageWidth s.mPdfPageHeight with
    | none => s
    | some dims =>
      { s with
        inflight := s.inflight ++ [(position, dims.1, dims.2)]
        renderCount := s.renderCount + 1 }

/-- `PdfPageAdapter.onBindViewHolder` (lines 389-436), restricted to the
cache/render path: bail out on invalid dimensions; on a cache hit set the
cached image; on a miss clear the image and call `renderPage`. -/
def onBindViewHolder (s : PagingViewState) (position viewWidth : Int) :
    PagingViewState :=
  if viewWidth ≤ 0 ∨ s.mPdfPageWidth ≤ 0 ∨ s.mPdfPageHeight ≤ 0 then s
  else
    match s.mImageCache.get position with
    | (c, some cached) =>
      { s with mImageCache := c, setImageLog := s.setImageLog ++ [(position, some cached)] }
    | (c, none) =>
      adapterRenderPage
        { s with mImageCache := c, setImageLog := s.setImageLog ++ [(position, none)] }
        position viewWidth

/-- Completion of a scheduled render (the tail of the coroutine in
`PdfPageAdapter.renderPage`, lines 457-466): a null result does nothing; a
bitmap is put into the cache and, if the holder is still bound to this
position, displayed. -/
def completePageRender (s : PagingViewState) (entry : Int × Int × Int)
    (success stillBound : Bool) : PagingViewState :=
  let s1 := { s with inflight := s.inflight.erase entry }
  if success then
    let bmp : Bitmap := { width := entry.2.1, height := entry.2.2 }
    let s2 := { s1 with mImageCache := s1.mImageCache.put entry.1 bmp }
    if stillBound then
      { s2 with setImageLog := s2.setImageLog ++ [(entry.1, some bmp)] }
    else s2
  else s1

/-- C9: `closePdf` is idempotent.  A second call (or a call on an already
closed session) produces no error, performs no further `close()` on any
handle, and leaves the session in the same closed state (renderer and file
descriptor released and null) as a single close. -/
theorem closePdf_idempotent (s : PagingViewState) :
    closePdf (closePdf s) = closePdf s ∧
    (closePdf s).mPdfRenderer = none ∧
    (closePdf s).mFileDescriptor = none ∧
    (closePdf s).events = s.events := by
  refine ⟨?_, rfl, rfl, rfl⟩
  simp [closePdf]

/-- C5: a successful open of a non-empty source with at least one page
opens page 0 exactly once, reads its box into the first-page dimensions,
closes that page handle (and not the document, which stays open) before
returning, records the page count, and emits `onLoadComplete` carrying
`(pageCount, firstPageWidth, firstPageHeight)`; a missing file and an
invalid document each instead emit an error event for this session
(the spec's `DocumentOpenError` cases) and leave no document open. -/
theorem reloadPdf_success_and_failure (fs : String → OpenOutcome)
    (s : PagingViewState) (n w0 h0 : Int)
    (hsrc : s.mSource ≠ "") (hdoc : fs s.mSource = OpenOutcome.doc n w0 h0)
    (hn : 0 < n) :
    (reloadPdf fs s).page0Opens = s.page0Opens + 1 ∧
    (reloadPdf fs s).page0Closes = s.page0Closes + 1 ∧
    (reloadPdf fs s).mPdfRenderer = some () ∧
    (reloadPdf fs s).mPdfPageWidth = w0 ∧
    (reloadPdf fs s).mPdfPageHeight = h0 ∧
    (reloadPdf fs s).mActualPageCount = n ∧
    (reloadPdf fs s).events = s.events ++ [PagingEvent.loadComplete w0 h0 n] ∧
    (∀ fs2 : String → OpenOutcome, fs2 s.mSource = OpenOutcome.notFound →
      (reloadPdf fs2 s).mPdfRenderer = none ∧
      (reloadPdf fs2 s).events =
        s.events ++ [PagingEvent.pdfError ("File '" ++ s.mSource ++ "' not found.")]) ∧
    (∀ fs3 : String → OpenOutcome, fs3 s.mSource = OpenOutcome.invalid →
      (reloadPdf fs3 s).mPdfRenderer = none ∧
      (reloadPdf fs3 s).events =
        s.events ++ [PagingEvent.pdfError "Failed to open PDF"]) := by
  refine ⟨?_, ?_, ?_, ?_, ?_, ?_, ?_, ?_, ?_⟩
  all_goals
    first
    | (simp only [reloadPdf, closePdf, LruCache.evictAll]
       rw [if_neg hsrc]
       simp [hdoc, hn])
    | (intro fs2 hfs2
       simp only [reloadPdf, closePdf, LruCache.evictAll]
       rw [if_neg hsrc]
       simp [hfs2])

/-- C5 witness: a three-page 612×792 document on a fresh view state loads
and reports `onLoadComplete(612, 792, 3)`; the same state handed an
invalid document reports the open error and holds no document. -/
theorem reloadPdf_success_and_failure_witness :
    (reloadPdf (fun _ => OpenOutcome.doc 3 612 792)
      { mSource := "doc.pdf", mPdfRenderer := none, mFileDescriptor := none
        mPdfPageWidth := 0, mPdfPageHeight := 0, mActualPageCount := 0
        mImageCache := { entries := [], maxSize := 0 }
        rendererCloses := 0, fdCloses := 0, page0Opens := 0, page0Closes := 0
        inflight := [], renderCount := 0, setImageLog := [], events := [] }).events =
      [] ++ [PagingEvent.loadComplete 612 792 3] ∧
    (reloadPdf (fun _ => OpenOutcome.invalid)
      { mSource := "doc.pdf", mPdfRenderer := none, mFileDescriptor := none
        mPdfPageWidth := 0, mPdfPageHeight := 0, mActualPageCount := 0
        mImageCache := { entries := [], maxSize := 0 }
        rendererCloses := 0, fdCloses := 0, page0Opens := 0, page0Closes := 0
        inflight := [], renderCount := 0, setImageLog := [], events := [] }).mPdfRenderer = none ∧
    (reloadPdf (fun _ => OpenOutcome.invalid)
      { mSource := "doc.pdf", mPdfRenderer := none, mFileDescriptor := none
        mPdfPageWidth := 0, mPdfPageHeight := 0, mActualPageCount := 0
        mImageCache := { entries := [], maxSize := 0 }
        rendererCloses := 0, fdCloses := 0, page0Opens := 0, page0Closes := 0
        inflight := [], renderCount := 0, setImageLog := [], events := [] }).events =
      [] ++ [PagingEvent.pdfError "Failed to open PDF"] := by
  have h := reloadPdf_success_and_failure (fun _ => OpenOutcome.doc 3 612 792)
    { mSource := "doc.pdf", mPdfRenderer := none, mFileDescriptor := none
      mPdfPageWidth := 0, mPdfPageHeight := 0, mActualPageCount := 0
      mImageCache := { entries := [], maxSize := 0 }
      rendererCloses := 0, fdCloses := 0, page0Opens := 0, page0Closes := 0
      inflight := [], renderCount := 0, setImageLog := [], events := [] }
    3 612 792 (by decide) rfl (by decide)
  have hinv := h.2.2.2.2.2.2.2.2 (fun _ => OpenOutcome.invalid) rfl
  exact ⟨h.2.2.2.2.2.2.1, hinv.1, hinv.2⟩

/-- C2 counterexample: with an empty cache, binding the same page twice
before any render completes performs two underlying render invocations,
not the single one the claim requires: there is no in-flight
de-duplication in `PdfPageAdapter.renderPage` (nor in the iOS
`collectionView(_:cellForItemAt:)` path). -/
theorem bind_same_page_twice_two_renders :
    (onBindViewHolder (onBindViewHolder
      { mSource := "doc.pdf", mPdfRenderer := some (), mFileDescriptor := some ()
        mPdfPageWidth := 100, mPdfPageHeight := 200, mActualPageCount := 3
        mImageCache := { entries := [], maxSize := 1000 }
        rendererCloses := 0, fdCloses := 0, page0Opens := 1, page0Closes := 1
        inflight := [], renderCount := 0, setImageLog := [], events := [] }
      0 100) 0 100).renderCount = 2 ∧ (2 : Nat) ≠ 1 := by
  constructor
  · decide
  · decide

/-- C2 (amended): a `requestPage` that misses the cache always schedules a
fresh underlying render — the scheduling path never consults the set of
in-flight renders, so N concurrent requests for the same
`(pageIndex, width, height)` issued before any completes perform N
underlying render invocations; only a request that hits the cache is
served without starting a render. -/
theorem bind_cache_miss_always_schedules_render (s : PagingViewState)
    (position viewWidth : Int)
    (hw : 0 < viewWidth) (hpw : 0 < s.mPdfPageWidth) (hph : 0 < s.mPdfPageHeight)
    (hr : s.mPdfRenderer = some ())
    (hh : 0 < adapterPageHeight viewWidth s.mPdfPageHeight s.mPdfPageWidth) :
    ((s.mImageCache.get position).2 = none →
      (onBindViewHolder s position viewWidth).renderCount = s.renderCount + 1 ∧
      (onBindViewHolder s position viewWidth).inflight = s.inflight ++
        [(position, viewWidth, adapterPageHeight viewWidth s.mPdfPageHeight s.mPdfPageWidth)]) ∧
    (∀ b, (s.mImageCache.get position).2 = some b →
      (onBindViewHolder s position viewWidth).renderCount = s.renderCount ∧
      (onBindViewHolder s position viewWidth).inflight = s.inflight ∧
      (onBindViewHolder s position viewWidth).setImageLog =
        s.setImageLog ++ [(position, some b)]) := by
  have hcond : ¬ (viewWidth ≤ 0 ∨ s.mPdfPageWidth ≤ 0 ∨ s.mPdfPageHeight ≤ 0) := by
    push_neg
    exact ⟨hw, hpw, hph⟩
  constructor
  · intro hmiss
    rcases hget : s.mImageCache.get position with ⟨c, r⟩
    rw [hget] at hmiss
    simp only at hmiss
    subst hmiss
    unfold onBindViewHolder
    rw [if_neg hcond, hget]
    simp only [adapterRenderPage, hr, adapterRenderPageDims]
    rw [if_neg hcond]
    rw [if_neg (not_le.mpr hh)]
    exact ⟨rfl, rfl⟩
  · intro b hhit
    rcases hget : s.mImageCache.get position with ⟨c, r⟩
    rw [hget] at hhit
    simp only at hhit
    subst hhit
    unfold onBindViewHolder
    rw [if_neg hcond, hget]
    exact ⟨rfl, rfl, rfl⟩

/-- C2 amended witness: one bind on an empty cache adds one in-flight
render. -/
theorem bind_cache_miss_always_schedules_render_witness :
    (onBindViewHolder
      { mSource := "doc.pdf", mPdfRenderer := some (), mFileDescriptor := some ()
        mPdfPageWidth := 100, mPdfPageHeight := 200, mActualPageCount := 3
        mImageCache := { entries := [], maxSize := 1000 }
        rendererCloses := 0, fdCloses := 0, page0Opens := 1, page0Closes := 1
        inflight := [], renderCount := 0, setImageLog := [], events := [] }
      0 100).renderCount = 0 + 1 := by
  have h := bind_cache_miss_always_schedules_render
    { mSource := "doc.pdf", mPdfRenderer := some (), mFileDescriptor := some ()
      mPdfPageWidth := 100, mPdfPageHeight := 200, mActualPageCount := 3
      mImageCache := { entries := [], maxSize := 1000 }
      rendererCloses := 0, fdCloses := 0, page0Opens := 1, page0Closes := 1
      inflight := [], renderCount := 0, setImageLog := [], events := [] }
    0 100 (by decide) (by decide) (by decide) rfl (by decide)
  exact (h.1 (by decide)).1

/-- C6 counterexample: with page size 3×2 (width 3, height 2) and target
width 100, the rendered height is the truncated `⌊100 * 2 / 3⌋ = 66`, which
differs from the exact fit-width value `100 * (2 / 3) = 200/3`. -/
theorem fit_width_height_truncation_counterexample :
    adapterRenderPageDims 100 3 2 = some (100, 66) ∧
    ¬ ((66 : ℚ) = 100 * ((2 : ℚ) / 3)) := by
  constructor
  · decide
  · norm_num

/-- C6 (amended): under fit-width rendering the bitmap width is exactly the
target width `W` and its height is the integer truncation of
`W * pageHeight / pageWidth` — characterized here as the floor of the
exact fit-width value. -/
theorem fit_width_dims_floor (W pw ph : Int)
    (hW : 0 < W) (hpw : 0 < pw) (hph : 0 < ph)
    (hh : 0 < adapterPageHeight W ph pw) :
    adapterRenderPageDims W pw ph = some (W, adapterPageHeight W ph pw) ∧
    (adapterPageHeight W ph pw).toNat * pw.toNat ≤ W.toNat * ph.toNat ∧
    W.toNat * ph.toNat < ((adapterPageHeight W ph pw).toNat + 1) * pw.toNat := by
  have hb : 0 < pw.toNat := by omega
  refine ⟨?_, ?_, ?_⟩
  · unfold adapterRenderPageDims
    rw [if_neg (by push_neg; exact ⟨hW, hpw, hph⟩), if_neg (not_le.mpr hh)]
  · have h1 : (adapterPageHeight W ph pw).toNat = W.toNat * ph.toNat / pw.toNat := rfl
    rw [h1]
    exact Nat.div_mul_le_self _ _
  · have h1 : (adapterPageHeight W ph pw).toNat = W.toNat * ph.toNat / pw.toNat := rfl
    rw [h1]
    have hmod := Nat.mod_lt (W.toNat * ph.toNat) hb
    have hdm := Nat.div_add_mod (W.toNat * ph.toNat) pw.toNat
    nlinarith [hdm, hmod]

/-- C6 witness: target width 100 on a 3×2 page renders at 100×66. -/
theorem fit_width_dims_floor_witness :
    adapterRenderPageDims 100 3 2 = some (100, adapterPageHeight 100 2 3) := by
  exact (fit_width_dims_floor 100 3 2 (by decide) (by decide) (by decide) (by decide)).1

/-- A vector stroke of an `AnnotationPage`: color string, line width, and a
list of normalized points (each a coordinate list, nominally `[x, y]`). -/
structure Stroke where
  color : String
  width : ℚ
  path : List (List ℚ)
deriving DecidableEq

/-- A positioned text item of an `AnnotationPage`. -/
structure PositionedText where
  color : String
  fontSize : ℚ
  point : List ℚ
  str : String
deriving DecidableEq

/-- One page of externally supplied overlay data (strokes and positioned
text), as consumed by `PdfPageRenderer.renderPage` in `Common.kt`. -/
structure AnnotationPage where
  strokes : List Stroke
  text : List PositionedText
deriving DecidableEq

/-- A primitive drawn onto the rendered page raster.  `drawPath` records the
polyline's pixel points; `drawText` records the `Canvas.drawText` arguments
(x and the baseline y).  Colors are kept as the raw strings handed to the
external `Color.parseColor`. -/
inductive DrawOp where
  | drawPath (color : String) (strokeWidth : ℚ) (points : List (ℚ × ℚ))
  | drawText (str : String) (color : String) (textSize : ℚ) (x y : ℚ)
deriving DecidableEq

/-- The pixel points of one stroke path (`Common.kt` lines 153-163): each
point with at least two coordinates contributes
`(point[0] * viewWidth, point[1] * pageHeight)`; shorter points are
skipped. -/
def strokePixelPoints (viewWidth pageHeight : ℚ) : List (List ℚ) → List (ℚ × ℚ)
  | [] => []
  | p :: rest =>
    match p with
    | x :: y :: _ => (x * viewWidth, y * pageHeight) :: strokePixelPoints viewWidth pageHeight rest
    | _ => strokePixelPoints viewWidth pageHeight rest

/-- The overlay drawing block of `PdfPageRenderer.renderPage`
(`Common.kt` lines 136-181): strokes whose path has fewer than 2 points are
skipped (`continue`); each drawn stroke uses width `stroke.width * 2`; text
items whose point has fewer than 2 coordinates are skipped; each drawn text
uses size `fontSize * 2` and is placed at
`(point[0] * viewWidth, point[1] * pageHeight + textSize)` — the y argument
of `Canvas.drawText` is the baseline, adjusted by `paint.textSize`. -/
def compositeOps (viewWidth pageHeight : ℚ) (ann : AnnotationPage) : List DrawOp :=
  (ann.strokes.filterMap fun s =>
    if s.path.length < 2 then none
    else some (DrawOp.drawPath s.color (s.width * 2)
      (strokePixelPoints viewWidth pageHeight s.path))) ++
  (ann.text.filterMap fun t =>
    match t.point with
    | x :: y :: _ =>
      some (DrawOp.drawText t.str t.color (t.fontSize * 2)
        (x * viewWidth) (y * pageHeight + t.fontSize * 2))
    | _ => none)

/-- The result of one rendered page: the allocated bitmap dimensions and
the overlay primitives drawn onto it. -/
structure RenderedBitmap where
  width : Int
  height : Int
  ops : List DrawOp
deriving DecidableEq

/-- Trace of one `PdfPageRenderer.renderPage` call (`Common.kt` lines
110-188): the returned value (`null` on any failure), whether `pdfMutex`
was acquired, and whether `renderer.openPage` was invoked. -/
structure RenderTrace where
  result : Option RenderedBitmap
  lockAcquired : Bool
  pageOpenAttempted : Bool
deriving DecidableEq

/-- `PdfPageRenderer.renderPage`: non-positive dimensions return `null`
before acquiring the lock; otherwise, under the lock, `openPage(pageIndex)`
is attempted — an out-of-range index makes it throw, the exception is
caught, and `null` is returned; on success the bitmap is
`viewWidth × pageHeight` with the overlay of `compositeOps` when an
overlay page is supplied. -/
def renderPage (pageCount pageIndex viewWidth pageHeight : Int)
    (ann : Option AnnotationPage) : RenderTrace :=
  if viewWidth ≤ 0 ∨ pageHeight ≤ 0 then
    { result := none, lockAcquired := false, pageOpenAttempted := false }
  else if pageIndex < 0 ∨ pageCount ≤ pageIndex then
    { result := none, lockAcquired := true, pageOpenAttempted := true }
  else
    { result := some
        { width := viewWidth, height := pageHeight
          ops := match ann with
                 | none => []
                 | some a => compositeOps (viewWidth : ℚ) (pageHeight : ℚ) a }
      lockAcquired := true, pageOpenAttempted := true }

/-- C3 counterexample: `renderPage(5, …)` on a 3-page document does not
fail fast — the page open is attempted under the lock — and no
`InvalidArgument` error is delivered: the caller receives a bare `null`
(which `PdfPageAdapter.renderPage` then silently drops). -/
theorem renderPage_out_of_range_attempts_open :
    (renderPage 3 5 100 100 none).pageOpenAttempted = true ∧
    (renderPage 3 5 100 100 none).lockAcquired = true ∧
    (renderPage 3 5 100 100 none).result = none := by
  exact ⟨rfl, rfl, rfl⟩

/-- C3 (amended): a call with a non-positive target dimension returns
`null` immediately, without acquiring the lock or attempting a page open;
a call with positive dimensions and an out-of-range page index attempts
the page open under the lock, the thrown exception is caught, and `null`
is returned — in neither case is a typed `InvalidArgument` error
produced. -/
theorem renderPage_invalid_args_null_result
    (pageCount pageIndex viewWidth pageHeight : Int) (ann : Option AnnotationPage)
    (hdim : viewWidth ≤ 0 ∨ pageHeight ≤ 0) :
    renderPage pageCount pageIndex viewWidth pageHeight ann =
      { result := none, lockAcquired := false, pageOpenAttempted := false } ∧
    (∀ w h : Int, 0 < w → 0 < h → pageIndex < 0 ∨ pageCount ≤ pageIndex →
      renderPage pageCount pageIndex w h ann =
        { result := none, lockAcquired := true, pageOpenAttempted := true }) := by
  constructor
  · unfold renderPage
    rw [if_pos hdim]
  · intro w h hw hh hrange
    unfold renderPage
    rw [if_neg (by push_neg; exact ⟨hw, hh⟩), if_pos hrange]

/-- C3 amended witness: width 0 is rejected before the lock; index 5 on a
3-page document is caught after the open attempt. -/
theorem renderPage_invalid_args_null_result_witness :
    renderPage 3 0 0 100 none =
      { result := none, lockAcquired := false, pageOpenAttempted := false } ∧
    renderPage 3 5 100 100 none =
      { result := none, lockAcquired := true, pageOpenAttempted := true } := by
  have h := renderPage_invalid_args_null_result 3 0 0 100 none (by decide)
  have h2 := renderPage_invalid_args_null_result 3 5 0 100 none (by decide)
  exact ⟨h.1, h2.2 100 100 (by decide) (by decide) (by decide)⟩

/-- C7: the overlay compositor is total and tolerant — empty stroke and
text lists leave the rendered raster unchanged (no primitive is drawn),
and a stroke whose point list has fewer than 2 points is skipped entirely,
leaving exactly the primitives that would be drawn without it. -/
theorem composite_empty_and_short_stroke_safe (viewWidth pageHeight : ℚ) :
    compositeOps viewWidth pageHeight { strokes := [], text := [] } = [] ∧
    (∀ (s : Stroke) (rest : List Stroke) (ts : List PositionedText),
      s.path.length < 2 →
      compositeOps viewWidth pageHeight { strokes := s :: rest, text := ts } =
        compositeOps viewWidth pageHeight { strokes := rest, text := ts }) := by
  constructor
  · rfl
  · intro s rest ts hs
    simp [compositeOps, hs]

/-- C7 witness: a single one-point stroke draws nothing. -/
theorem composite_empty_and_short_stroke_safe_witness :
    compositeOps 100 100
      { strokes := [{ color := "#ff0000", width := 3, path := [[0, 0]] }], text := [] } =
      compositeOps 100 100 { strokes := [], text := [] } := by
  exact (composite_empty_and_short_stroke_safe 100 100).2
    { color := "#ff0000", width := 3, path := [[0, 0]] } [] [] (by decide)

/-- C8 counterexample: a text item at normalized point `(1/2, 1/2)` with
font size 10 on a 100×100 raster is drawn by `Canvas.drawText` with
y-argument `0.5 * 100 + 2 * 10 = 70`, not at `0.5 * 100 = 50`: the Android
text path adjusts the baseline by `paint.textSize`, so the claim's exact
`(x * renderWidth, y * renderHeight)` mapping fails for text. -/
theorem text_draw_baseline_offset_counterexample :
    compositeOps 100 100
      { strokes := []
        text := [{ color := "#0000ff", fontSize := 10, point := [1/2, 1/2], str := "hi" }] } =
      [DrawOp.drawText "hi" "#0000ff" 20 50 70] ∧
    (70 : ℚ) ≠ (1 / 2 : ℚ) * 100 := by
  constructor
  · simp only [compositeOps, List.filterMap]
    norm_num
  · norm_num

/-- C8 (amended): every stroke point with both coordinates maps exactly to
pixel `(x * renderWidth, y * renderHeight)`, and the x-position of every
drawn text item is exactly `x * renderWidth`; the y-argument of the text
draw is `y * renderHeight + textSize` (with `textSize = 2 * fontSize`),
the baseline adjustment placing the top of the text at
`y * renderHeight`.  (The iOS text path in `Common.swift` draws at exactly
`(x * renderWidth, y * renderHeight)`.) -/
theorem coordinate_mapping_amended (W H x y : ℚ) (rest : List ℚ)
    (tl : List (List ℚ)) (t : PositionedText)
    (ht : t.point = x :: y :: rest) :
    strokePixelPoints W H ((x :: y :: rest) :: tl) =
      (x * W, y * H) :: strokePixelPoints W H tl ∧
    compositeOps W H { strokes := [], text := [t] } =
      [DrawOp.drawText t.str t.color (t.fontSize * 2)
        (x * W) (y * H + t.fontSize * 2)] := by
  constructor
  · rfl
  · simp [compositeOps, ht]

/-- C8 amended witness: the point `(1/4, 3/4)` on a 200×400 raster. -/
theorem coordinate_mapping_amended_witness :
    strokePixelPoints 200 400 [[1/4, 3/4]] = [(1/4 * 200, 3/4 * 400)] ∧
    compositeOps 200 400
      { strokes := []
        text := [{ color := "#000000", fontSize := 8, point := [1/4, 3/4], str := "t" }] } =
      [DrawOp.drawText "t" "#000000" (8 * 2) (1/4 * 200) (3/4 * 400 + 8 * 2)] := by
  have h := coordinate_mapping_amended 200 400 (1/4) (3/4) [] []
    { color := "#000000", fontSize := 8, point := [1/4, 3/4], str := "t" } rfl
  exact ⟨h.1, h.2⟩

/-- `SLICES` from `Common.kt` line 14: the displayed raster is split into 4
horizontal slices. -/
def SLICES : Nat := 4

/-- Events emitted by `DrawablePdfView` through the React Native bridge. -/
inductive DrawableEvent where
  | loadComplete (width height : Int)
  | pdfError (msg : String)
deriving DecidableEq

/-- State of a `DrawablePdfView` instance (`DrawablePdfView.kt`), restricted
to the render pipeline: the generation counter, the dirty flag, the props
and layout the render schedule checks, the displayed raster (the four
bitmap slices abstracted to one bitmap), the stored page dimensions, and
the emitted events. -/
structure DrawableState where
  mRenderGeneration : Nat
  mDirty : Bool
  mSource : String
  width : Int
  height : Int
  mBitmaps : Option Bitmap
  mPdfPageWidth : Int
  mPdfPageHeight : Int
  events : List DrawableEvent
deriving DecidableEq

/-- The synchronous head of `DrawablePdfView.renderPdf` (lines 500-506):
bail out when the layout is degenerate, the source is empty, or the view is
not dirty; otherwise clear the dirty flag, bump `mRenderGeneration`, and
capture the bumped value (`currentGeneration`) for the scheduled coroutine,
returned here alongside the new state. -/
def scheduleRenderPdf (s : DrawableState) : DrawableState × Option Nat :=
  if s.height < 1 ∨ s.width < 1 ∨ s.mSource = "" ∨ s.mDirty = false then (s, none)
  else
    ({ s with mDirty := false, mRenderGeneration := s.mRenderGeneration + 1 },
     some (s.mRenderGeneration + 1))

/-- The main-thread tail of the render coroutine (`DrawablePdfView.kt`
lines 572-601): if a newer render was started (`currentGeneration !=
mRenderGeneration`) the bitmap is recycled and nothing else happens;
otherwise the page dimensions are stored and, unless the bitmap is too
short to slice (`sliceHeight < 1`), the slices are installed, the view is
invalidated, and `onLoadComplete` fires. -/
def completeRenderPdf (s : DrawableState) (capturedGeneration : Nat)
    (bmp : Bitmap) (pw ph : Int) : DrawableState :=
  if capturedGeneration ≠ s.mRenderGeneration then s
  else
    let s1 := { s with mPdfPageWidth := pw, mPdfPageHeight := ph }
    if bmp.height.toNat / SLICES < 1 then s1
    else
      { s1 with
        mBitmaps := some bmp
        events := s1.events ++ [DrawableEvent.loadComplete pw ph] }

/-- One interleaved step on a `DrawablePdfView`: a prop/layout setter that
marks the view dirty (`setPage`, `setSource`, `onSizeChanged`, …), a
`renderPdf` call, or the completion of a previously scheduled render. -/
inductive RenderStep where
  | markDirty
  | schedule
  | complete (capturedGeneration : Nat) (bmp : Bitmap) (pw ph : Int)
deriving DecidableEq

def stepRender (s : DrawableState) : RenderStep → DrawableState
  | RenderStep.markDirty => { s with mDirty := true }
  | RenderStep.schedule => (scheduleRenderPdf s).1
  | RenderStep.complete g bmp pw ph => completeRenderPdf s g bmp pw ph

def runRender (s : DrawableState) (ops : List RenderStep) : DrawableState :=
  ops.foldl stepRender s

/-- Whether the run of `ops` from `s` contains at least one `renderPdf`
call that actually schedules a render (and therefore bumps the
generation). -/
def bumpsGeneration (s : DrawableState) : List RenderStep → Bool
  | [] => false
  | RenderStep.markDirty :: rest =>
    bumpsGeneration (stepRender s RenderStep.markDirty) rest
  | RenderStep.schedule :: rest =>
    (scheduleRenderPdf s).2.isSome ||
      bumpsGeneration (stepRender s RenderStep.schedule) rest
  | RenderStep.complete g bmp pw ph :: rest =>
    bumpsGeneration (stepRender s (RenderStep.complete g bmp pw ph)) rest

theorem scheduleRenderPdf_some (s s' : DrawableState) (g : Nat)
    (h : scheduleRenderPdf s = (s', some g)) :
    s'.mRenderGeneration = g ∧ g = s.mRenderGeneration + 1 := by
  unfold scheduleRenderPdf at h
  by_cases hc : s.height < 1 ∨ s.width < 1 ∨ s.mSource = "" ∨ s.mDirty = false
  · rw [if_pos hc] at h
    have h2 := congrArg Prod.snd h
    simp at h2
  · rw [if_neg hc] at h
    have h1 := congrArg Prod.fst h
    have h2 := congrArg Prod.snd h
    simp only [Option.some.injEq] at h2
    subst h2
    simp only at h1
    constructor
    · rw [← h1]
    · rfl

theorem mRenderGeneration_le_stepRender (s : DrawableState) (op : RenderStep) :
    s.mRenderGeneration ≤ (stepRender s op).mRenderGeneration := by
  cases op with
  | markDirty => exact le_refl _
  | schedule =>
    show s.mRenderGeneration ≤ (scheduleRenderPdf s).1.mRenderGeneration
    unfold scheduleRenderPdf
    split
    · exact le_refl _
    · exact Nat.le_succ _
  | complete g bmp pw ph =>
    show s.mRenderGeneration ≤ (completeRenderPdf s g bmp pw ph).mRenderGeneration
    unfold completeRenderPdf
    split
    · exact le_refl _
    · dsimp only
      split
      · exact le_refl _
      · exact le_refl _

theorem mRenderGeneration_le_runRender (s : DrawableState) (ops : List RenderStep) :
    s.mRenderGeneration ≤ (runRender s ops).mRenderGeneration := by
  induction ops generalizing s with
  | nil => exact le_refl _
  | cons op rest ih =>
    exact le_trans (mRenderGeneration_le_stepRender s op) (ih (stepRender s op))

theorem bumpsGeneration_lt_runRender (s : DrawableState) (ops : List RenderStep)
    (h : bumpsGeneration s ops = true) :
    s.mRenderGeneration < (runRender s ops).mRenderGeneration := by
  induction ops generalizing s with
  | nil => simp [bumpsGeneration] at h
  | cons op rest ih =>
    have hrun : runRender s (op :: rest) = runRender (stepRender s op) rest := rfl
    rw [hrun]
    cases op with
    | markDirty =>
      rw [bumpsGeneration] at h
      exact lt_of_le_of_lt (mRenderGeneration_le_stepRender s RenderStep.markDirty)
        (ih (stepRender s RenderStep.markDirty) h)
    | schedule =>
      rw [bumpsGeneration] at h
      rcases (Bool.or_eq_true _ _).mp h with hnow | hlater
      · have hlt : s.mRenderGeneration < (stepRender s RenderStep.schedule).mRenderGeneration := by
          show s.mRenderGeneration < (scheduleRenderPdf s).1.mRenderGeneration
          rcases hsnd : (scheduleRenderPdf s).2 with _ | g
          · rw [hsnd] at hnow
            simp at hnow
          · have hs := scheduleRenderPdf_some s (scheduleRenderPdf s).1 g (by rw [← hsnd])
            omega
        exact lt_of_lt_of_le hlt
          (mRenderGeneration_le_runRender (stepRender s RenderStep.schedule) rest)
      · exact lt_of_le_of_lt (mRenderGeneration_le_stepRender s RenderStep.schedule)
          (ih (stepRender s RenderStep.schedule) hlater)
    | complete g bmp pw ph =>
      rw [bumpsGeneration] at h
      exact lt_of_le_of_lt (mRenderGeneration_le_stepRender s (RenderStep.complete g bmp pw ph))
        (ih (stepRender s (RenderStep.complete g bmp pw ph)) h)

/-- C1: a completed render is applied to the visible output (raster stored,
`onLoadComplete` dispatched) only if the generation captured when it was
scheduled still equals the current counter at completion time; if any
render was scheduled between the capture and the completion (bumping the
counter), the completion leaves the state entirely unchanged; and a
still-current completion of a sliceable bitmap installs the raster and
dispatches `onLoadComplete`. -/
theorem renderPdf_stale_generation_discarded (s0 s1 : DrawableState) (g : Nat)
    (ops : List RenderStep) (bmp : Bitmap) (pw ph : Int)
    (hsched : scheduleRenderPdf s0 = (s1, some g)) :
    (bumpsGeneration s1 ops = true →
      completeRenderPdf (runRender s1 ops) g bmp pw ph = runRender s1 ops) ∧
    (completeRenderPdf (runRender s1 ops) g bmp pw ph ≠ runRender s1 ops →
      g = (runRender s1 ops).mRenderGeneration) ∧
    (g = (runRender s1 ops).mRenderGeneration → 4 ≤ bmp.height →
      (completeRenderPdf (runRender s1 ops) g bmp pw ph).mBitmaps = some bmp ∧
      (completeRenderPdf (runRender s1 ops) g bmp pw ph).events =
        (runRender s1 ops).events ++ [DrawableEvent.loadComplete pw ph]) := by
  have hg := scheduleRenderPdf_some s0 s1 g hsched
  refine ⟨?_, ?_, ?_⟩
  · intro hbump
    have hlt := bumpsGeneration_lt_runRender s1 ops hbump
    have hne : g ≠ (runRender s1 ops).mRenderGeneration := by omega
    unfold completeRenderPdf
    rw [if_pos hne]
  · intro hchange
    by_contra hne
    apply hchange
    unfold completeRenderPdf
    rw [if_pos hne]
  · intro heq hbig
    have hslice : ¬ (bmp.height.toNat / SLICES < 1) := by
      have h4 : 4 ≤ bmp.height.toNat := by omega
      simp only [SLICES]
      omega
    unfold completeRenderPdf
    rw [if_neg (by omega : ¬ g ≠ (runRender s1 ops).mRenderGeneration)]
    dsimp only
    rw [if_neg hslice]
    exact ⟨rfl, rfl⟩

/-- C1 witness: schedule captures generation 1, a setter re-dirties the
view and a second `renderPdf` bumps the counter to 2, so the first
completion is discarded without any state change. -/
theorem renderPdf_stale_generation_discarded_witness :
    bumpsGeneration
      { mRenderGeneration := 1, mDirty := false, mSource := "doc.pdf"
        width := 100, height := 100, mBitmaps := none
        mPdfPageWidth := 0, mPdfPageHeight := 0, events := [] }
      [RenderStep.markDirty, RenderStep.schedule] = true ∧
    completeRenderPdf
      (runRender
        { mRenderGeneration := 1, mDirty := false, mSource := "doc.pdf"
          width := 100, height := 100, mBitmaps := none
          mPdfPageWidth := 0, mPdfPageHeight := 0, events := [] }
        [RenderStep.markDirty, RenderStep.schedule]) 1
      { width := 100, height := 100 } 612 792 =
      runRender
        { mRenderGeneration := 1, mDirty := false, mSource := "doc.pdf"
          width := 100, height := 100, mBitmaps := none
          mPdfPageWidth := 0, mPdfPageHeight := 0, events := [] }
        [RenderStep.markDirty, RenderStep.schedule] := by
  have h := renderPdf_stale_generation_discarded
    { mRenderGeneration := 0, mDirty := true, mSource := "doc.pdf"
      width := 100, height := 100, mBitmaps := none
      mPdfPageWidth := 0, mPdfPageHeight := 0, events := [] }
    { mRenderGeneration := 1, mDirty := false, mSource := "doc.pdf"
      width := 100, height := 100, mBitmaps := none
      mPdfPageWidth := 0, mPdfPageHeight := 0, events := [] }
    1 [RenderStep.markDirty, RenderStep.schedule]
    { width := 100, height := 100 } 612 792 (by decide)
  exact ⟨by decide, h.1 (by decide)⟩

/-- A JSON value tree, the shape `org.json` hands back after parsing. -/
inductive Json where
  | null
  | bool (b : Bool)
  | num (q : ℚ)
  | str (s : String)
  | arr (items : List Json)
  | obj (fields : List (String × Json))

/-- `JSONArray.getJSONObject` on an element: throws unless the value is an
object (modelled strictly; `org.json` coercions do not matter for the
tolerance claim, since any thrown exception is caught by the caller). -/
def getObjFields : Json → Except String (List (String × Json))
  | Json.obj fields => Except.ok fields
  | _ => Except.error "not an object"

/-- Value of an object field, throwing when the key is absent
(`JSONObject.get…` semantics). -/
def getField (fields : List (String × Json)) (key : String) : Except String Json :=
  match fields.lookup key with
  | some v => Except.ok v
  | none => Except.error ("missing field " ++ key)

/-- `getJSONArray`: throws unless the value is an array. -/
def getArrItems : Json → Except String (List Json)
  | Json.arr items => Except.ok items
  | _ => Except.error "not an array"

/-- `getString`: throws unless the value is a string. -/
def getStr : Json → Except String String
  | Json.str s => Except.ok s
  | _ => Except.error "not a string"

/-- `getDouble`: throws unless the value is a number. -/
def getNum : Json → Except String ℚ
  | Json.num q => Except.ok q
  | _ => Except.error "not a number"

/-- `JSONArray.getJSONArray(k)` style index access: throws when out of
bounds. -/
def getIndex (items : List Json) (i : Nat) : Except String Json :=
  match items.get? i with
  | some v => Except.ok v
  | none => Except.error "index out of bounds"

/-- A point of a stroke path (`Common.kt` lines 45-49):
`[pointArray.getDouble(0), pointArray.getDouble(1)]`. -/
def parsePoint (j : Json) : Except String (List ℚ) := do
  let a ← getArrItems j
  let x ← getNum (← getIndex a 0)
  let y ← getNum (← getIndex a 1)
  pure [x, y]

/-- One stroke (`Common.kt` lines 41-55): the `path` array of points plus
`color` and `width`. -/
def parseStroke (j : Json) : Except String Stroke := do
  let fields ← getObjFields j
  let pathArr ← getArrItems (← getField fields "path")
  let path ← pathArr.mapM parsePoint
  let color ← getStr (← getField fields "color")
  let width ← getNum (← getField fields "width")
  pure { color := color, width := width, path := path }

/-- One positioned text item (`Common.kt` lines 61-71). -/
def parsePositionedText (j : Json) : Except String PositionedText := do
  let fields ← getObjFields j
  let pointArr ← getArrItems (← getField fields "point")
  let x ← getNum (← getIndex pointArr 0)
  let y ← getNum (← getIndex pointArr 1)
  let color ← getStr (← getField fields "color")
  let fontSize ← getNum (← getField fields "fontSize")
  let str ← getStr (← getField fields "str")
  pure { color := color, fontSize := fontSize, point := [x, y], str := str }

/-- One page object (`Common.kt` lines 36-74): its `strokes` and `text`
arrays. -/
def parsePage (j : Json) : Except String AnnotationPage := do
  let fields ← getObjFields j
  let strokesArr ← getArrItems (← getField fields "strokes")
  let strokes ← strokesArr.mapM parseStroke
  let textArr ← getArrItems (← getField fields "text")
  let text ← textArr.mapM parsePositionedText
  pure { strokes := strokes, text := text }

/-- `parseAnnotations` (`Common.kt` lines 28-80): null or empty input yields
the empty list; otherwise the string is handed to the `JSONArray`
constructor (the external parser `parseJsonArr`, `none` when it throws) and
the page objects are converted; any exception anywhere in the conversion is
caught and the empty list is returned. -/
def parseAnnotations (parseJsonArr : String → Option (List Json)) :
    Option String → List AnnotationPage
  | none => []
  | some s =>
    if s = "" then []
    else
      match parseJsonArr s with
      | none => []
      | some items =>
        match items.mapM parsePage with
        | Except.ok pages => pages
        | Except.error _ => []

/-- C10: `parseAnnotations` is total (it always returns a list — there is
no exception path out of it) and silently tolerant: null input, empty
input, input the JSON parser rejects, and input whose structure makes the
conversion throw all yield the empty list, with no error surfaced. -/
theorem parseAnnotations_tolerant
    (parseJsonArr : String → Option (List Json)) (s : String) :
    parseAnnotations parseJsonArr none = [] ∧
    parseAnnotations parseJsonArr (some "") = [] ∧
    (parseJsonArr s = none → parseAnnotations parseJsonArr (some s) = []) ∧
    (∀ (items : List Json) (msg : String), parseJsonArr s = some items →
      items.mapM parsePage = Except.error msg →
      parseAnnotations parseJsonArr (some s) = []) := by
  refine ⟨rfl, rfl, ?_, ?_⟩
  · intro h
    simp only [parseAnnotations]
    by_cases hs : s = ""
    · rw [if_pos hs]
    · rw [if_neg hs, h]
  · intro items msg h1 h2
    by_cases hs : s = ""
    · simp [parseAnnotations, hs]
    · simp only [parseAnnotations]
      rw [if_neg hs, h1]
      dsimp only
      rw [h2]

/-- C10 witness: a parser failure and a structural mismatch (a page that is
not a JSON object) both produce the empty list. -/
theorem parseAnnotations_tolerant_witness :
    parseAnnotations (fun _ => none) (some "oops") = [] ∧
    parseAnnotations (fun _ => some [Json.null]) (some "[null]") = [] := by
  have h1 := parseAnnotations_tolerant (fun _ => none) "oops"
  have h2 := parseAnnotations_tolerant (fun _ => some [Json.null]) "[null]"
  exact ⟨h1.2.2.1 rfl, h2.2.2.2 [Json.null] "not an object" rfl rfl⟩

end PdfLight
